import Mathlib

set_option maxRecDepth 4000

/-!
Verification of the crypto signal-analysis bot.

Shallow embedding of the repository's core logic:
* `analyze_market`  — the signal-fusion function (`main.py`, `TradingBot.analyze_market`);
* `techConfluence`, `techAnalyzeE` — the technical leaf (`technical_analysis.py`,
  `TechnicalAnalyzer.analyze` and its indicator helpers);
* `patternAnalyze` — the pattern leaf (`pattern_recognition.py`, `PatternRecognizer.analyze`);
* `generate_signal`, `profitPass` — the broadcaster's scorer, cooldown gatekeeper and
  profit-tracking pass (`signal_broadcaster.py`).

Prices and indicator values are rationals (`ℚ`); pandas `NaN` cells are modelled as
`Option ℚ` with the pandas convention that any comparison against `NaN` is false.
Python dicts are modelled as association lists in insertion order (CPython semantics).
-/

namespace CryptoBot

/-- Enum `SignalType` from `core_types.py` / `config.py`: BUY, SELL, HOLD. -/
inductive SignalType where
  | BUY
  | SELL
  | HOLD
deriving DecidableEq, Repr, Fintype

/-- Enum `ConfidenceLevel`: `config.py` declares HIGH, MEDIUM, LOW, NONE
(`core_types.py` omits LOW; the technical leaf imports the `config.py`
version and can emit LOW, so the union of the two value spaces is used). -/
inductive ConfidenceLevel where
  | HIGH
  | MEDIUM
  | LOW
  | NONE
deriving DecidableEq, Repr, Fintype

/-- A leaf's (direction, confidence) judgment, as consumed by the fusion engine. -/
abbrev LeafOpinion := SignalType × ConfidenceLevel

/-- Contribution of one leaf opinion to the tally of direction `d`
(`main.py` line 227/228: `sum(1 for signal, _ in signals.values() if signal == ...)`).
Only the direction component is inspected. -/
def contrib (d : SignalType) (op : LeafOpinion) : ℕ :=
  if op.1 = d then 1 else 0

/-- Tally of leaf opinions whose direction equals `d`, across the three leaves
(technical, pattern, sentiment). -/
def dirCount (d : SignalType) (t p s : LeafOpinion) : ℕ :=
  contrib d t + contrib d p + contrib d s

/-- Fusion `TradingBot.analyze_market` (`main.py` lines 226-240): counts bullish and
bearish leaf directions and maps the counts to a final (signal, confidence). -/
def analyze_market (t p s : LeafOpinion) : SignalType × ConfidenceLevel :=
  let bullish_count := dirCount .BUY t p s
  let bearish_count := dirCount .SELL t p s
  if 2 ≤ bullish_count then (.BUY, .HIGH)
  else if 2 ≤ bearish_count then (.SELL, .HIGH)
  else if bullish_count = 1 then (.BUY, .MEDIUM)
  else if bearish_count = 1 then (.SELL, .MEDIUM)
  else (.HOLD, .NONE)

/-- Confluence stage of the technical leaf
(`technical_analysis.py` lines 94-112): counts BUY/SELL among the four
indicator signals (RSI, MACD, EMA, Bollinger) and maps counts to
(signal, confidence); a single firing indicator yields LOW confidence. -/
def techConfluence (rsiS macdS emaS bbS : SignalType) : SignalType × ConfidenceLevel :=
  let signals := [rsiS, macdS, emaS, bbS]
  let bullish_count := (signals.filter (fun x => x = .BUY)).length
  let bearish_count := (signals.filter (fun x => x = .SELL)).length
  if 3 ≤ bullish_count then (.BUY, .HIGH)
  else if 3 ≤ bearish_count then (.SELL, .HIGH)
  else if bullish_count = 2 then (.BUY, .MEDIUM)
  else if bearish_count = 2 then (.SELL, .MEDIUM)
  else if bullish_count = 1 then (.BUY, .LOW)
  else if bearish_count = 1 then (.SELL, .LOW)
  else (.HOLD, .NONE)

/-! ### Technical leaf (`technical_analysis.py` with constants from `config.py`)

The price series is the `close` column, oldest first.  Indicator columns are
computed with pandas/`ta`; a cell that pandas leaves as NaN (window or
`min_periods` not yet satisfied) is `none`, and — as in pandas — any
comparison against NaN is false.  Only the last cell of each indicator
column is consumed by `TechnicalAnalyzer.analyze`, so the embedding computes
last values directly. -/

def RSI_PERIOD : ℕ := 14
def RSI_OVERBOUGHT : ℚ := 70
def RSI_OVERSOLD : ℚ := 30
def MACD_FAST : ℕ := 12
def MACD_SLOW : ℕ := 26
def MACD_SIGNAL : ℕ := 9
def EMA_SHORT : ℕ := 9
def EMA_LONG : ℕ := 21
def BB_PERIOD : ℕ := 20

/-- Final value of `ewm(..., adjust=False).mean()` with smoothing factor `a`:
the recursion `e := a * y + (1 - a) * e` seeded with the first value. -/
def ewmLast (a : ℚ) : List ℚ → Option ℚ
  | [] => none
  | x :: xs => some (xs.foldl (fun e y => a * y + (1 - a) * e) x)

/-- Whole `ewm(..., adjust=False).mean()` column (one value per input cell). -/
def ewmScan (a : ℚ) : List ℚ → List ℚ
  | [] => []
  | x :: xs => xs.scanl (fun e y => a * y + (1 - a) * e) x

/-- Last cell of `ta`'s `_ema(series, span)` =
`series.ewm(span=span, min_periods=span, adjust=False).mean()`:
NaN until `min_periods` observations are available. -/
def emaLast (span minPeriods : ℕ) (xs : List ℚ) : Option ℚ :=
  if xs.length < minPeriods then none
  else ewmLast (2 / ((span : ℚ) + 1)) xs

/-- Series `close.diff()` with the leading NaN dropped. -/
def rsiDiffs (xs : List ℚ) : List ℚ :=
  List.zipWith (fun a b => b - a) xs xs.tail

/-- Value `100 - 100 / (1 + gain/loss)` with pandas float conventions:
`0/0` is NaN (→ `none`), `positive/0` is `+inf` making the RSI 100. -/
def rsiCombine : Option ℚ → Option ℚ → Option ℚ
  | some u, some d =>
    if u = 0 ∧ d = 0 then none
    else if d = 0 then some 100
    else some (100 - 100 / (1 + u / d))
  | _, _ => none

/-- Gain series `diff.where(diff > 0, 0.0)`: the leading NaN diff cell compares
false and becomes `0.0`, so for a non-empty close series the gains start with 0. -/
def rsiUps (xs : List ℚ) : List ℚ :=
  match xs with
  | [] => []
  | _ :: _ => 0 :: (rsiDiffs xs).map (fun v => max v 0)

/-- Loss series `-diff.where(diff < 0, 0.0)`. -/
def rsiDowns (xs : List ℚ) : List ℚ :=
  match xs with
  | [] => []
  | _ :: _ => 0 :: (rsiDiffs xs).map (fun v => max (-v) 0)

/-- Last cell of `ta`'s `RSIIndicator(close, window=14).rsi()`: Wilder smoothing
(`ewm(alpha=1/14, min_periods=14, adjust=False)`) of the gain/loss series,
which are NaN-free (the leading diff NaN is already zeroed), so the last cell
is NaN exactly while the series has fewer than 14 closes. -/
def rsiLast (xs : List ℚ) : Option ℚ :=
  if xs.length < RSI_PERIOD then none
  else
    rsiCombine
      (ewmLast (1 / (RSI_PERIOD : ℚ)) (rsiUps xs))
      (ewmLast (1 / (RSI_PERIOD : ℚ)) (rsiDowns xs))

/-- The MACD column as EMA(12) − EMA(26) of the close, cellwise (before the
`min_periods` masking). -/
def macdFull (xs : List ℚ) : List ℚ :=
  List.zipWith (fun a b => a - b)
    (ewmScan (2 / ((MACD_FAST : ℚ) + 1)) xs) (ewmScan (2 / ((MACD_SLOW : ℚ) + 1)) xs)

/-- Last MACD cell: NaN until the slow EMA (min_periods = 26) is populated. -/
def macdLast (xs : List ℚ) : Option ℚ :=
  if xs.length < MACD_SLOW then none else (macdFull xs).getLast?

/-- Last MACD signal-line cell: EMA(9) over the MACD column, whose first 25
cells are NaN; NaN until 9 non-NaN MACD cells exist. -/
def macdSignalLast (xs : List ℚ) : Option ℚ :=
  if ((macdFull xs).drop (MACD_SLOW - 1)).length < MACD_SIGNAL then none
  else ewmLast (2 / ((MACD_SIGNAL : ℚ) + 1)) ((macdFull xs).drop (MACD_SLOW - 1))

/-- Last `n` elements of a list (`iloc[-n:]` / `tail(n)`). -/
def tailN {β : Type} (n : ℕ) (l : List β) : List β := l.drop (l.length - n)

/-- Last cell of `close.rolling(window=20).mean()` (Bollinger middle band). -/
def smaLast (xs : List ℚ) : Option ℚ :=
  if xs.length < BB_PERIOD then none
  else some ((tailN BB_PERIOD xs).sum / (BB_PERIOD : ℚ))

/-- Last cell of the rolling variance: `ta`'s Bollinger implementation passes
`ddof=0` (population variance) to `rolling(...).std`; the variance is kept
instead of the irrational standard deviation. -/
def varLast (xs : List ℚ) : Option ℚ :=
  if xs.length < BB_PERIOD then none
  else
    some (((tailN BB_PERIOD xs).map
      (fun x => (x - (tailN BB_PERIOD xs).sum / (BB_PERIOD : ℚ)) ^ 2)).sum /
        (BB_PERIOD : ℚ))

/-- Embeds `TechnicalAnalyzer.get_rsi_signal`. -/
def get_rsi_signal (xs : List ℚ) : SignalType :=
  match rsiLast xs with
  | some r => if r < RSI_OVERSOLD then .BUY else if RSI_OVERBOUGHT < r then .SELL else .HOLD
  | none => .HOLD

/-- Embeds `TechnicalAnalyzer.get_macd_signal`. -/
def get_macd_signal (xs : List ℚ) : SignalType :=
  match macdLast xs, macdSignalLast xs with
  | some m, some sl => if sl < m then .BUY else if m < sl then .SELL else .HOLD
  | _, _ => .HOLD

/-- Embeds `TechnicalAnalyzer.get_ema_signal` with EMA(9) and EMA(21). -/
def get_ema_signal (xs : List ℚ) : SignalType :=
  match emaLast EMA_SHORT EMA_SHORT xs, emaLast EMA_LONG EMA_LONG xs with
  | some a, some b => if b < a then .BUY else if a < b then .SELL else .HOLD
  | _, _ => .HOLD

/-- Embeds `TechnicalAnalyzer.get_bb_signal`: `price < sma − 2·std` is bullish,
`price > sma + 2·std` bearish.  `price < m − 2·√v ↔ m − price > 0 ∧
(m − price)² > 4v`, so the comparison is rendered with exact rational
arithmetic on the variance. -/
def get_bb_signal (xs : List ℚ) (price : ℚ) : SignalType :=
  match smaLast xs, varLast xs with
  | some m, some v =>
    if 0 < m - price ∧ 4 * v < (m - price) ^ 2 then .BUY
    else if 0 < price - m ∧ 4 * v < (price - m) ^ 2 then .SELL
    else .HOLD
  | _, _ => .HOLD

/-- Embeds `TechnicalAnalyzer.analyze`: computes the indicators, reads
`df['close'].iloc[-1]` — which raises `IndexError` on an empty series (the
method has no try/except) — then fuses the four indicator signals.
Exceptions are modelled with `Except`. -/
def techAnalyzeE (xs : List ℚ) : Except String (SignalType × ConfidenceLevel) :=
  match xs.getLast? with
  | none => Except.error "IndexError"
  | some price =>
    Except.ok (techConfluence (get_rsi_signal xs) (get_macd_signal xs) (get_ema_signal xs)
      (get_bb_signal xs price))

/-! ### Pattern leaf (`pattern_recognition.py`)

An OHLC candle row.  `open` is a Lean keyword, hence `opn`.  The wick columns
computed in `analyze` are never read by any check and are omitted.  Every
`_check_*` helper swallows its exceptions and returns `False`; accordingly the
embedded checks are total, with Python error paths (index out of range,
division by zero) mapped to `false`. -/

structure Candle where
  opn : ℚ
  high : ℚ
  low : ℚ
  close : ℚ
deriving DecidableEq, Repr

/-- The `body` column: `abs(close - open)`. -/
def candBody (c : Candle) : ℚ := |c.close - c.opn|

/-- Column `rolling(window=w).mean()`: NaN until the window is full. -/
def rollMean (w : ℕ) (xs : List ℚ) : List (Option ℚ) :=
  (List.range xs.length).map (fun i =>
    if i + 1 < w then none
    else some (((xs.take (i + 1)).drop (i + 1 - w)).sum / (w : ℚ)))

/-- pandas `is_monotonic_increasing`: non-strict, and False if any NaN. -/
def monoIncr : List (Option ℚ) → Bool
  | [] => true
  | [some _] => true
  | some a :: some b :: rest => decide (a ≤ b) && monoIncr (some b :: rest)
  | _ => false

/-- pandas `is_monotonic_decreasing`: non-strict, and False if any NaN. -/
def monoDecr : List (Option ℚ) → Bool
  | [] => true
  | [some _] => true
  | some a :: some b :: rest => decide (b ≤ a) && monoDecr (some b :: rest)
  | _ => false

/-- Last cell of an indicator column (`iloc[-1]`), propagating NaN. -/
def optLast {β : Type} (l : List (Option β)) : Option β :=
  match l.getLast? with
  | some o => o
  | none => none

/-- Embeds `_check_bullish_engulfing` on the last-3-candles frame. -/
def checkBullishEngulfing (candles : List Candle) : Bool :=
  if candles.length < 2 then false
  else
    match candles.get? (candles.length - 2), candles.getLast? with
    | some prev, some curr =>
      decide (prev.close < prev.opn ∧ curr.opn < curr.close ∧
        curr.opn < prev.close ∧ prev.opn < curr.close)
    | _, _ => false

/-- Embeds `_check_bearish_engulfing`. -/
def checkBearishEngulfing (candles : List Candle) : Bool :=
  if candles.length < 2 then false
  else
    match candles.get? (candles.length - 2), candles.getLast? with
    | some prev, some curr =>
      decide (prev.opn < prev.close ∧ curr.close < curr.opn ∧
        prev.close < curr.opn ∧ curr.close < prev.opn)
    | _, _ => false

/-- Embeds `_check_morning_star`: bearish first candle, small-bodied second
(body < 30% of the first body), bullish third closing above the first
candle's midpoint. -/
def checkMorningStar (candles : List Candle) : Bool :=
  if candles.length < 3 then false
  else
    match candles.get? (candles.length - 3), candles.get? (candles.length - 2),
        candles.getLast? with
    | some first, some second, some third =>
      decide (first.close < first.opn ∧ candBody second < candBody first * (3 / 10) ∧
        third.opn < third.close ∧ (first.opn + first.close) / 2 < third.close)
    | _, _, _ => false

/-- Embeds `_check_evening_star`. -/
def checkEveningStar (candles : List Candle) : Bool :=
  if candles.length < 3 then false
  else
    match candles.get? (candles.length - 3), candles.get? (candles.length - 2),
        candles.getLast? with
    | some first, some second, some third =>
      decide (first.opn < first.close ∧ candBody second < candBody first * (3 / 10) ∧
        third.close < third.opn ∧ third.close < (first.opn + first.close) / 2)
    | _, _, _ => false

/-- Strict local maxima over `range(1, len-1)` (the double-top peak scan). -/
def peaksIn (highs : List ℚ) : List (ℕ × ℚ) :=
  (List.range highs.length).filterMap (fun i =>
    match highs.get? i, highs.get? (i - 1), highs.get? (i + 1) with
    | some h, some hp, some hn =>
      if 1 ≤ i ∧ hp < h ∧ hn < h then some (i, h) else none
    | _, _, _ => none)

/-- Strict local minima over `range(1, len-1)` (the double-bottom trough scan). -/
def troughsIn (lows : List ℚ) : List (ℕ × ℚ) :=
  (List.range lows.length).filterMap (fun i =>
    match lows.get? i, lows.get? (i - 1), lows.get? (i + 1) with
    | some h, some hp, some hn =>
      if 1 ≤ i ∧ h < hp ∧ h < hn then some (i, h) else none
    | _, _, _ => none)

/-- Local maxima against both neighbours at distance 1 and 2, over
`range(2, len-2)` (the head-and-shoulders peak scan). -/
def peaks2In (highs : List ℚ) : List (ℕ × ℚ) :=
  (List.range highs.length).filterMap (fun i =>
    match highs.get? i, highs.get? (i - 1), highs.get? (i - 2),
        highs.get? (i + 1), highs.get? (i + 2) with
    | some h, some h1, some h2, some h3, some h4 =>
      if 2 ≤ i ∧ h1 < h ∧ h2 < h ∧ h3 < h ∧ h4 < h then some (i, h) else none
    | _, _, _, _, _ => none)

/-- Local minima against both neighbours at distance 1 and 2. -/
def troughs2In (lows : List ℚ) : List (ℕ × ℚ) :=
  (List.range lows.length).filterMap (fun i =>
    match lows.get? i, lows.get? (i - 1), lows.get? (i - 2),
        lows.get? (i + 1), lows.get? (i + 2) with
    | some h, some h1, some h2, some h3, some h4 =>
      if 2 ≤ i ∧ h < h1 ∧ h < h2 ∧ h < h3 ∧ h < h4 then some (i, h) else none
    | _, _, _, _, _ => none)

/-- Stable insertion for a descending sort on the height component
(Python `list.sort(key=..., reverse=True)` is stable). -/
def insertDescBy (x : ℕ × ℚ) : List (ℕ × ℚ) → List (ℕ × ℚ)
  | [] => [x]
  | y :: ys => if y.2 < x.2 then x :: y :: ys else y :: insertDescBy x ys

/-- Stable descending sort by height. -/
def sortDescBy (l : List (ℕ × ℚ)) : List (ℕ × ℚ) :=
  l.foldl (fun acc x => insertDescBy x acc) []

/-- Stable insertion for an ascending sort on the height component. -/
def insertAscBy (x : ℕ × ℚ) : List (ℕ × ℚ) → List (ℕ × ℚ)
  | [] => [x]
  | y :: ys => if x.2 < y.2 then x :: y :: ys else y :: insertAscBy x ys

/-- Stable ascending sort by height. -/
def sortAscBy (l : List (ℕ × ℚ)) : List (ℕ × ℚ) :=
  l.foldl (fun acc x => insertAscBy x acc) []

/-- Embeds `_check_double_top`: two highest peaks of the last 20 highs within 2%;
a zero reference height is the Python `ZeroDivisionError` path (→ False). -/
def checkDoubleTop (df : List Candle) : Bool :=
  if df.length < 20 then false
  else
    match (sortDescBy (peaksIn ((tailN 20 df).map (fun c => c.high)))).get? 0,
        (sortDescBy (peaksIn ((tailN 20 df).map (fun c => c.high)))).get? 1 with
    | some p0, some p1 =>
      if p0.2 = 0 then false else decide (|p0.2 - p1.2| / p0.2 < 2 / 100)
    | _, _ => false

/-- Embeds `_check_double_bottom`: two lowest troughs of the last 20 lows within 2%. -/
def checkDoubleBottom (df : List Candle) : Bool :=
  if df.length < 20 then false
  else
    match (sortAscBy (troughsIn ((tailN 20 df).map (fun c => c.low)))).get? 0,
        (sortAscBy (troughsIn ((tailN 20 df).map (fun c => c.low)))).get? 1 with
    | some t0, some t1 =>
      if t0.2 = 0 then false else decide (|t0.2 - t1.2| / t0.2 < 2 / 100)
    | _, _ => false

/-- Embeds `_check_head_and_shoulders`: the three highest ±2-neighbourhood peaks of
the last 30 highs, assigned (left shoulder, head, right shoulder) in height
order, must have the head above both shoulders and shoulders within 2%. -/
def checkHeadAndShoulders (df : List Candle) : Bool :=
  if df.length < 30 then false
  else
    match (sortDescBy (peaks2In ((tailN 30 df).map (fun c => c.high)))).get? 0,
        (sortDescBy (peaks2In ((tailN 30 df).map (fun c => c.high)))).get? 1,
        (sortDescBy (peaks2In ((tailN 30 df).map (fun c => c.high)))).get? 2 with
    | some ls, some hd, some rs =>
      if ls.2 = 0 then false
      else decide (ls.2 < hd.2 ∧ rs.2 < hd.2 ∧ |ls.2 - rs.2| / ls.2 < 2 / 100)
    | _, _, _ => false

/-- Embeds `_check_inverse_head_and_shoulders`. -/
def checkInverseHeadAndShoulders (df : List Candle) : Bool :=
  if df.length < 30 then false
  else
    match (sortAscBy (troughs2In ((tailN 30 df).map (fun c => c.low)))).get? 0,
        (sortAscBy (troughs2In ((tailN 30 df).map (fun c => c.low)))).get? 1,
        (sortAscBy (troughs2In ((tailN 30 df).map (fun c => c.low)))).get? 2 with
    | some ls, some hd, some rs =>
      if ls.2 = 0 then false
      else decide (hd.2 < ls.2 ∧ hd.2 < rs.2 ∧ |ls.2 - rs.2| / ls.2 < 2 / 100)
    | _, _, _ => false

/-- Embeds `_check_uptrend`: `close > sma_20 > sma_50` on the last row (False when a
band is NaN or the frame is empty — `df.iloc[-1]` raising is caught) and the
last five `sma_20` cells monotonically increasing. -/
def checkUptrend (df : List Candle) (sma20 sma50 : List (Option ℚ)) : Bool :=
  match df.getLast? with
  | none => false
  | some lastRow =>
    (match optLast sma20, optLast sma50 with
     | some s20, some s50 => decide (s20 < lastRow.close ∧ s50 < s20)
     | _, _ => false)
    && monoIncr (tailN 5 sma20)

/-- Embeds `_check_downtrend`. -/
def checkDowntrend (df : List Candle) (sma20 sma50 : List (Option ℚ)) : Bool :=
  match df.getLast? with
  | none => false
  | some lastRow =>
    (match optLast sma20, optLast sma50 with
     | some s20, some s50 => decide (lastRow.close < s20 ∧ s20 < s50)
     | _, _ => false)
    && monoDecr (tailN 5 sma20)

/-- Python `max(patterns, key=lambda x: x[1])[1]`: first maximum wins. -/
def maxConf (l : List (String × ℚ)) : ℚ :=
  match l with
  | [] => 0
  | x :: xs => xs.foldl (fun m y => if m < y.2 then y.2 else m) x.2

/-- Embeds `PatternRecognizer.analyze`: run all ten checks (candlestick patterns on
the last 3 candles, larger patterns on the whole frame, trend checks), then:
only bullish → (Buy, High); only bearish → (Sell, High); both → Medium in the
direction of the higher per-pattern confidence; none → (Hold, None).  The
surrounding try/except makes the function total. -/
def patternAnalyze (df : List Candle) : SignalType × ConfidenceLevel :=
  let closes := df.map (fun c => c.close)
  let sma20 := rollMean 20 closes
  let sma50 := rollMean 50 closes
  let last3 := tailN 3 df
  let bullish : List (String × ℚ) :=
    (if checkBullishEngulfing last3 then [("bullish_engulfing", 8 / 10)] else []) ++
    (if checkMorningStar last3 then [("morning_star", 9 / 10)] else []) ++
    (if checkDoubleBottom df then [("double_bottom", 7 / 10)] else []) ++
    (if checkInverseHeadAndShoulders df then [("inverse_head_and_shoulders", 8 / 10)]
      else []) ++
    (if checkUptrend df sma20 sma50 then [("uptrend", 6 / 10)] else [])
  let bearish : List (String × ℚ) :=
    (if checkBearishEngulfing last3 then [("bearish_engulfing", 8 / 10)] else []) ++
    (if checkEveningStar last3 then [("evening_star", 9 / 10)] else []) ++
    (if checkDoubleTop df then [("double_top", 7 / 10)] else []) ++
    (if checkHeadAndShoulders df then [("head_and_shoulders", 8 / 10)] else []) ++
    (if checkDowntrend df sma20 sma50 then [("downtrend", 6 / 10)] else [])
  if bullish ≠ [] ∧ bearish = [] then (.BUY, .HIGH)
  else if bearish ≠ [] ∧ bullish = [] then (.SELL, .HIGH)
  else if bullish ≠ [] ∧ bearish ≠ [] then
    if maxConf bearish < maxConf bullish then (.BUY, .MEDIUM) else (.SELL, .MEDIUM)
  else (.HOLD, .NONE)

/-- A two-candle frame forming a bullish engulfing pattern: a bearish candle
followed by a bullish candle that engulfs it. -/
def engCandles : List Candle := [⟨10, 10, 8, 9⟩, ⟨8, 12, 7, 11⟩]

/-! ### Signal broadcaster (`signal_broadcaster.py`)

`SignalBroadcaster.generate_signal` consumes the last row of the indicator
dataframe built by `calculate_indicators`.  The dataframe is abstracted to
that last row (`MarketRow`); a `none` field models a NaN cell (e.g. an
indicator whose rolling window is not yet full) — NaN compares false.
Python dicts (`last_signals`, `profit_tracking`) are association lists in
insertion order; `upsert` mirrors dict assignment (overwrite in place,
append new keys at the end). -/

/-- Python dict lookup on an association list. -/
def alookup {α : Type} (k : String) : List (String × α) → Option α
  | [] => none
  | (k', v) :: rest => if k = k' then some v else alookup k rest

/-- Python dict assignment `d[k] = v`: overwrite in place, else append. -/
def upsert {α : Type} (k : String) (v : α) : List (String × α) → List (String × α)
  | [] => [(k, v)]
  | (k', v') :: rest => if k' = k then (k, v) :: rest else (k', v') :: upsert k v rest

/-- Constant `self.signal_cooldown = 7200  # 2 hours in seconds` (`signal_broadcaster.py` line 27). -/
def signal_cooldown : ℚ := 7200

/-- Last row of the dataframe produced by `calculate_indicators`, as read by
`generate_signal`: indicator values at `iloc[-1]` (NaN ↦ `none`), the current
close `price` and the previous close `prevClose` (`close.iloc[-2]`, consulted
only by the Bollinger check, whose bands are non-NaN only when the dataframe
has at least 20 rows). -/
structure MarketRow where
  rsi : Option ℚ
  macd : Option ℚ
  signalLine : Option ℚ
  ema20 : Option ℚ
  ema50 : Option ℚ
  bbUpper : Option ℚ
  bbLower : Option ℚ
  price : ℚ
  prevClose : ℚ
deriving DecidableEq, Repr

/-- The mutable `signal` dict built inside `generate_signal`: the action set so
far (`None`/"BUY"/"SELL") and the strength counter. -/
structure SigState where
  action : Option SignalType
  strength : ℕ
deriving DecidableEq, Repr

/-- The common MACD/EMA/Bollinger voting shape: increment strength if the check
agrees with the already-set action, set the action (without incrementing) if it
is still unset, otherwise leave the state unchanged. -/
def applyVote (v : SignalType) (s : SigState) : SigState :=
  if s.action = some v then { s with strength := s.strength + 1 }
  else if s.action = none then { s with action := some v }
  else s

/-- RSI check (`signal_broadcaster.py` lines 189-200): on an extreme it sets the
action unconditionally AND increments strength. -/
def rsiCheck (row : MarketRow) (s : SigState) : SigState :=
  match row.rsi with
  | none => s
  | some r =>
    if r < 30 then { action := some .BUY, strength := s.strength + 1 }
    else if 70 < r then { action := some .SELL, strength := s.strength + 1 }
    else s

/-- MACD check (lines 202-218): fires bullish when `macd > signal and macd > 0`,
bearish when `macd < signal and macd < 0`. -/
def macdCheck (row : MarketRow) (s : SigState) : SigState :=
  match row.macd, row.signalLine with
  | some m, some sl =>
    if sl < m ∧ 0 < m then applyVote .BUY s
    else if m < sl ∧ m < 0 then applyVote .SELL s
    else s
  | _, _ => s

/-- EMA check (lines 220-237): `ema20 > ema50 and price > ema20` bullish,
`ema20 < ema50 and price < ema20` bearish. -/
def emaCheck (row : MarketRow) (s : SigState) : SigState :=
  match row.ema20, row.ema50 with
  | some e20, some e50 =>
    if e50 < e20 ∧ e20 < row.price then applyVote .BUY s
    else if e20 < e50 ∧ row.price < e20 then applyVote .SELL s
    else s
  | _, _ => s

/-- Bollinger check (lines 239-256): `price < bb_lower` with a rising last
candle is bullish, `price > bb_upper` with a falling last candle is bearish. -/
def bbCheck (row : MarketRow) (s : SigState) : SigState :=
  match row.bbUpper, row.bbLower with
  | some bu, some bl =>
    if row.price < bl ∧ row.prevClose < row.price then applyVote .BUY s
    else if bu < row.price ∧ row.price < row.prevClose then applyVote .SELL s
    else s
  | _, _ => s

/-- The four checks in source order: RSI, MACD, EMA, Bollinger Bands, starting
from `action = None, strength = 0`. -/
def runChecks (row : MarketRow) : SigState :=
  bbCheck row (emaCheck row (macdCheck row (rsiCheck row ⟨none, 0⟩)))

/-- The signal dict stored in `last_signals` (the fields the gatekeeper and
broadcaster read back; the `indicators` sub-dict is never consulted again). -/
structure SigRecord where
  price : ℚ
  timestamp : ℚ
  action : SignalType
  strength : ℕ
deriving DecidableEq, Repr

/-- A `profit_tracking` entry: created on signal generation, refreshed by
`update_profit_tracking`. -/
structure ProfitRecord where
  entryPrice : ℚ
  entryTime : ℚ
  action : SignalType
  currentProfit : Option ℚ
  currentPrice : Option ℚ
deriving DecidableEq, Repr

/-- The broadcaster's mutable state: `self.last_signals` and `self.profit_tracking`. -/
structure BroadcasterState where
  lastSignals : List (String × SigRecord)
  profitTracking : List (String × ProfitRecord)
deriving DecidableEq, Repr

/-- Fresh broadcaster: both dicts empty (`__init__`). -/
def initState : BroadcasterState := ⟨[], []⟩

/-- Cooldown test at the top of `generate_signal` (lines 173-178): a pair with
a recorded signal is in cooldown while `now - last_signal_time < signal_cooldown`. -/
def inCooldown (st : BroadcasterState) (pair : String) (now : ℚ) : Bool :=
  match alookup pair st.lastSignals with
  | some sr => decide (now - sr.timestamp < signal_cooldown)
  | none => false

/-- Body of `generate_signal` after the cooldown gate (lines 180-270): run the checks;
if an action was set and `strength >= 2`, store the signal in `last_signals`,
initialise `profit_tracking`, and return it; otherwise return `None`. -/
def genCore (st : BroadcasterState) (pair : String) (row : MarketRow) (now : ℚ) :
    Option SigRecord × BroadcasterState :=
  let s := runChecks row
  match s.action with
  | some a =>
    if 2 ≤ s.strength then
      (some ⟨row.price, now, a, s.strength⟩,
        { lastSignals := upsert pair ⟨row.price, now, a, s.strength⟩ st.lastSignals,
          profitTracking := upsert pair ⟨row.price, now, a, none, none⟩ st.profitTracking })
    else (none, st)
  | none => (none, st)

/-- Embeds `SignalBroadcaster.generate_signal` (lines 164-270) on a non-empty
dataframe: cooldown gate, then the strength-accumulation scorer. -/
def generate_signal (st : BroadcasterState) (pair : String) (row : MarketRow) (now : ℚ) :
    Option SigRecord × BroadcasterState :=
  if inCooldown st pair now then (none, st)
  else genCore st pair row now

/-- One pair of a broadcast cycle: `generate_signal` followed, when a signal was
produced, by the `broadcast_signals` delivery attempt.  `deliverOk` is the
Notifier outcome; a failure is caught and logged (lines 283-284) and the
broadcaster state is not touched either way — the `last_signals` record was
already written inside `generate_signal`. -/
def processPair (deliverOk : Bool) (st : BroadcasterState) (pair : String) (row : MarketRow)
    (now : ℚ) : BroadcasterState × Bool :=
  match generate_signal st pair row now with
  | (some _, st') => (st', deliverOk)
  | (none, st') => (st', false)

/-! ### Profit tracking (`signal_broadcaster.py`, `update_profit_tracking`)

One pass of the `while self.running` loop body: Python iterates
`self.profit_tracking.items()` in insertion order. `del` of an expired entry
followed by `continue` makes the next call on the dict iterator raise
`RuntimeError: dictionary changed size during iteration`, which the
pass-level `except` catches — so the pass stops right after the deletion and
the remaining entries are untouched.  A `ZeroDivisionError` from the
profit computation likewise aborts the pass with the entry unrefreshed.
Both aborts are modelled by returning the unprocessed tail as is. -/

/-- The `profit_pct` computation (lines 336-339). -/
def profitPct (pr : ProfitRecord) (price : ℚ) : ℚ :=
  if pr.action = .BUY then (price - pr.entryPrice) / pr.entryPrice * 100
  else (pr.entryPrice - price) / pr.entryPrice * 100

/-- Refresh of one tracked entry (lines 326-343): fetch the current price
(`none` models `if not klines: continue` — entry untouched), else store the
computed profit and price. -/
def refreshEntry (fetch : String → Option ℚ) (e : String × ProfitRecord) :
    String × ProfitRecord :=
  match fetch e.1 with
  | none => e
  | some price =>
    (e.1, { e.2 with currentProfit := some (profitPct e.2 price), currentPrice := some price })

/-- One pass over `profit_tracking` (lines 319-343).  `now` is the wall clock
(Python reads it per entry; a pass is modelled at one instant). -/
def profitPass (now : ℚ) (fetch : String → Option ℚ) :
    List (String × ProfitRecord) → List (String × ProfitRecord)
  | [] => []
  | e :: rest =>
    if 86400 < now - e.2.entryTime then
      rest
    else
      match fetch e.1 with
      | none => e :: profitPass now fetch rest
      | some price =>
        if e.2.entryPrice = 0 then e :: rest
        else (e.1, { e.2 with currentProfit := some (profitPct e.2 price),
                              currentPrice := some price }) :: profitPass now fetch rest

/-- States of one broadcaster reachable from a fresh instance by the
operations that touch its two dicts: `generate_signal` invocations and
`update_profit_tracking` passes (`broadcast_signals` reads but never writes). -/
inductive Reachable : BroadcasterState → Prop where
  | init : Reachable initState
  | gen (pair : String) (row : MarketRow) (now : ℚ) (st : BroadcasterState) :
      Reachable st → Reachable (generate_signal st pair row now).2
  | profit (now : ℚ) (fetch : String → Option ℚ) (st : BroadcasterState) :
      Reachable st →
      Reachable { st with profitTracking := profitPass now fetch st.profitTracking }

/-- A market row on which RSI fires bullish (20 < 30) and MACD agrees
(1 > 0 on both conditions); EMA and Bollinger columns are NaN. -/
def rowRsiMacd : MarketRow := ⟨some 20, some 1, some 0, none, none, none, none, 100, 99⟩

/-- A state holding a BUY record for BTCUSDT delivered at time 0. -/
def stCool : BroadcasterState := ⟨[("BTCUSDT", ⟨100, 0, .BUY, 2⟩)], []⟩

/-- The action values that can ever sit in the `signal` dict. -/
def okAction (o : Option SignalType) : Prop :=
  o = none ∨ o = some .BUY ∨ o = some .SELL


/-! ### Lemmas -/

lemma alookup_upsert {α : Type} (k k' : String) (v : α) (l : List (String × α)) :
    alookup k' (upsert k v l) = if k' = k then some v else alookup k' l := by
  induction l with
  | nil => by_cases h : k' = k <;> simp [upsert, alookup, h]
  | cons hd tl ih =>
    obtain ⟨a, b⟩ := hd
    by_cases h1 : a = k
    · subst h1
      by_cases h2 : k' = a <;> simp [upsert, alookup, h2]
    · by_cases h2 : k' = a
      · subst h2
        simp [upsert, alookup, h1]
      · simp [upsert, alookup, h1, h2, ih]

lemma applyVote_action_some (v a : SignalType) (s : SigState) (h : s.action = some a) :
    (applyVote v s).action = some a := by
  unfold applyVote
  split_ifs with h1 h2
  · exact h
  · rw [h] at h2; cases h2
  · exact h

lemma applyVote_agree (v : SignalType) (s : SigState) (h : s.action = some v) :
    applyVote v s = ⟨some v, s.strength + 1⟩ := by
  unfold applyVote
  rw [if_pos h]
  cases s
  simp_all

lemma applyVote_set (v : SignalType) (s : SigState) (h : s.action = none) :
    applyVote v s = ⟨some v, s.strength⟩ := by
  unfold applyVote
  rw [if_neg (by rw [h]; intro hc; cases hc), if_pos h]

lemma macdCheck_action_some (row : MarketRow) (s : SigState) (a : SignalType)
    (h : s.action = some a) : (macdCheck row s).action = some a := by
  obtain ⟨r0, m0, sl0, e20, e50, bu, bl, pr, pc⟩ := row
  dsimp [macdCheck]
  cases m0 <;> cases sl0 <;> try exact h
  dsimp only
  split_ifs <;> first | exact applyVote_action_some _ _ _ h | exact h

lemma emaCheck_action_some (row : MarketRow) (s : SigState) (a : SignalType)
    (h : s.action = some a) : (emaCheck row s).action = some a := by
  obtain ⟨r0, m0, sl0, e20, e50, bu, bl, pr, pc⟩ := row
  dsimp [emaCheck]
  cases e20 <;> cases e50 <;> try exact h
  dsimp only
  split_ifs <;> first | exact applyVote_action_some _ _ _ h | exact h

lemma bbCheck_action_some (row : MarketRow) (s : SigState) (a : SignalType)
    (h : s.action = some a) : (bbCheck row s).action = some a := by
  obtain ⟨r0, m0, sl0, e20, e50, bu, bl, pr, pc⟩ := row
  dsimp [bbCheck]
  cases bu <;> cases bl <;> try exact h
  dsimp only
  split_ifs <;> first | exact applyVote_action_some _ _ _ h | exact h

lemma applyVote_ok (v : SignalType) (hv : v = .BUY ∨ v = .SELL) (s : SigState)
    (h : okAction s.action) : okAction (applyVote v s).action := by
  unfold applyVote
  split_ifs with h1 h2
  · exact h
  · rcases hv with rfl | rfl
    · right; left; rfl
    · right; right; rfl
  · exact h

lemma rsiCheck_ok (row : MarketRow) (s : SigState) (h : okAction s.action) :
    okAction (rsiCheck row s).action := by
  obtain ⟨r0, m0, sl0, e20, e50, bu, bl, pr, pc⟩ := row
  dsimp [rsiCheck]
  cases r0 with
  | none => exact h
  | some r =>
    dsimp only
    split_ifs
    · right; left; rfl
    · right; right; rfl
    · exact h

lemma macdCheck_ok (row : MarketRow) (s : SigState) (h : okAction s.action) :
    okAction (macdCheck row s).action := by
  obtain ⟨r0, m0, sl0, e20, e50, bu, bl, pr, pc⟩ := row
  dsimp [macdCheck]
  cases m0 <;> cases sl0 <;> try exact h
  dsimp only
  split_ifs
  · exact applyVote_ok _ (Or.inl rfl) _ h
  · exact applyVote_ok _ (Or.inr rfl) _ h
  · exact h

lemma emaCheck_ok (row : MarketRow) (s : SigState) (h : okAction s.action) :
    okAction (emaCheck row s).action := by
  obtain ⟨r0, m0, sl0, e20, e50, bu, bl, pr, pc⟩ := row
  dsimp [emaCheck]
  cases e20 <;> cases e50 <;> try exact h
  dsimp only
  split_ifs
  · exact applyVote_ok _ (Or.inl rfl) _ h
  · exact applyVote_ok _ (Or.inr rfl) _ h
  · exact h

lemma bbCheck_ok (row : MarketRow) (s : SigState) (h : okAction s.action) :
    okAction (bbCheck row s).action := by
  obtain ⟨r0, m0, sl0, e20, e50, bu, bl, pr, pc⟩ := row
  dsimp [bbCheck]
  cases bu <;> cases bl <;> try exact h
  dsimp only
  split_ifs
  · exact applyVote_ok _ (Or.inl rfl) _ h
  · exact applyVote_ok _ (Or.inr rfl) _ h
  · exact h

lemma runChecks_ok (row : MarketRow) : okAction (runChecks row).action :=
  bbCheck_ok row _ (emaCheck_ok row _ (macdCheck_ok row _
    (rsiCheck_ok row ⟨none, 0⟩ (Or.inl rfl))))

lemma genCore_cases (st : BroadcasterState) (pair : String) (row : MarketRow) (now : ℚ) :
    genCore st pair row now = (none, st) ∨
    ∃ a, (runChecks row).action = some a ∧ 2 ≤ (runChecks row).strength ∧
      genCore st pair row now =
        (some ⟨row.price, now, a, (runChecks row).strength⟩,
          ⟨upsert pair ⟨row.price, now, a, (runChecks row).strength⟩ st.lastSignals,
           upsert pair ⟨row.price, now, a, none, none⟩ st.profitTracking⟩) := by
  unfold genCore
  dsimp only
  rcases hs : (runChecks row).action with _ | a
  · left; rfl
  · dsimp only
    split_ifs with h2
    · right; exact ⟨a, rfl, h2, rfl⟩
    · left; rfl

lemma generate_signal_cases (st : BroadcasterState) (pair : String) (row : MarketRow)
    (now : ℚ) :
    generate_signal st pair row now = (none, st) ∨
    (inCooldown st pair now = false ∧ 2 ≤ (runChecks row).strength ∧
      ∃ a, (runChecks row).action = some a ∧
        generate_signal st pair row now =
          (some ⟨row.price, now, a, (runChecks row).strength⟩,
            ⟨upsert pair ⟨row.price, now, a, (runChecks row).strength⟩ st.lastSignals,
             upsert pair ⟨row.price, now, a, none, none⟩ st.profitTracking⟩)) := by
  unfold generate_signal
  cases hc : inCooldown st pair now
  · have hne : ¬(false = true) := by simp
    rw [if_neg hne]
    rcases genCore_cases st pair row now with h | ⟨a, ha, h2, h⟩
    · left; exact h
    · right; exact ⟨rfl, h2, a, ha, h⟩
  · rw [if_pos rfl]
    left
    rfl

lemma inCooldown_true_of (st : BroadcasterState) (pair : String) (now : ℚ) (sr : SigRecord)
    (h : alookup pair st.lastSignals = some sr)
    (hlt : now - sr.timestamp < signal_cooldown) : inCooldown st pair now = true := by
  unfold inCooldown
  rw [h]
  simpa using hlt

lemma inCooldown_false_of (st : BroadcasterState) (pair : String) (now : ℚ) (sr : SigRecord)
    (h : alookup pair st.lastSignals = some sr)
    (hge : signal_cooldown ≤ now - sr.timestamp) : inCooldown st pair now = false := by
  unfold inCooldown
  rw [h]
  simpa using hge

lemma generate_signal_cooldown (st : BroadcasterState) (pair : String) (row : MarketRow)
    (now : ℚ) (h : inCooldown st pair now = true) :
    generate_signal st pair row now = (none, st) := by
  unfold generate_signal
  rw [h]
  simp

lemma generate_signal_not_cooldown (st : BroadcasterState) (pair : String) (row : MarketRow)
    (now : ℚ) (h : inCooldown st pair now = false) :
    generate_signal st pair row now = genCore st pair row now := by
  unfold generate_signal
  rw [h]
  simp

/-- Unfolding equation for `profitPass` on a non-empty tracking dict. -/
lemma profitPass_cons (now : ℚ) (fetch : String → Option ℚ) (e : String × ProfitRecord)
    (rest : List (String × ProfitRecord)) :
    profitPass now fetch (e :: rest) =
      if 86400 < now - e.2.entryTime then rest
      else
        match fetch e.1 with
        | none => e :: profitPass now fetch rest
        | some price =>
          if e.2.entryPrice = 0 then e :: rest
          else (e.1, { e.2 with currentProfit := some (profitPct e.2 price),
                                currentPrice := some price }) :: profitPass now fetch rest :=
  rfl

/- Lemmas for the leaf embeddings. -/

lemma ewmScan_length (a : ℚ) (xs : List ℚ) : (ewmScan a xs).length = xs.length := by
  cases xs with
  | nil => rfl
  | cons x ys => simp [ewmScan, List.length_scanl]

lemma rsiLast_none_of_short {xs : List ℚ} (h : xs.length < RSI_PERIOD) :
    rsiLast xs = none := by
  unfold rsiLast
  rw [if_pos h]

lemma macdFull_length (xs : List ℚ) : (macdFull xs).length = xs.length := by
  unfold macdFull
  rw [List.length_zipWith, ewmScan_length, ewmScan_length]
  omega

lemma macdSignalLast_none_of_short {xs : List ℚ} (h : xs.length < 34) :
    macdSignalLast xs = none := by
  have hd : ((macdFull xs).drop (MACD_SLOW - 1)).length < MACD_SIGNAL := by
    rw [List.length_drop, macdFull_length]
    unfold MACD_SLOW MACD_SIGNAL
    omega
  unfold macdSignalLast
  rw [if_pos hd]

lemma emaLast_none_of_short {xs : List ℚ} {span minPeriods : ℕ}
    (h : xs.length < minPeriods) : emaLast span minPeriods xs = none := by
  unfold emaLast
  rw [if_pos h]

lemma smaLast_none_of_short {xs : List ℚ} (h : xs.length < BB_PERIOD) :
    smaLast xs = none := by
  unfold smaLast
  rw [if_pos h]

lemma get_rsi_signal_hold {xs : List ℚ} (h : rsiLast xs = none) :
    get_rsi_signal xs = .HOLD := by
  unfold get_rsi_signal
  rw [h]

lemma get_macd_signal_hold {xs : List ℚ} (h : macdSignalLast xs = none) :
    get_macd_signal xs = .HOLD := by
  unfold get_macd_signal
  rw [h]
  rcases macdLast xs with _ | m <;> rfl

lemma get_ema_signal_hold {xs : List ℚ} (h : emaLast EMA_LONG EMA_LONG xs = none) :
    get_ema_signal xs = .HOLD := by
  unfold get_ema_signal
  rw [h]
  rcases emaLast EMA_SHORT EMA_SHORT xs with _ | a <;> rfl

lemma get_bb_signal_hold {xs : List ℚ} (price : ℚ) (h : smaLast xs = none) :
    get_bb_signal xs price = .HOLD := by
  unfold get_bb_signal
  rw [h]


/-! ### Claim theorems for the fusion engine -/

/-- C1 counterexample: on the 1-1 tie `{Buy,Medium}, {Sell,Medium}, {Hold,None}`
the fusion function returns `(Buy, Medium)`, not `(Hold, None)`: the
`bullish_count == 1` branch fires even though `bearish_count == 1`. -/
theorem analyze_market_tie_not_hold :
    analyze_market (.BUY, .MEDIUM) (.SELL, .MEDIUM) (.HOLD, .NONE) ≠ (.HOLD, .NONE) ∧
    analyze_market (.BUY, .MEDIUM) (.SELL, .MEDIUM) (.HOLD, .NONE) = (.BUY, .MEDIUM) := by
  decide

/-- C1 (amended): a 1-1 tie resolves to `(Buy, Medium)` — ties are broken in
favour of Buy — and `(Buy, Medium)` is returned exactly when the bullish tally
is 1 and the bearish tally is at most 1. -/
theorem analyze_market_tie_breaks_to_buy :
    ∀ t p s : LeafOpinion,
      (dirCount .BUY t p s = 1 → dirCount .SELL t p s = 1 →
        analyze_market t p s = (.BUY, .MEDIUM)) ∧
      (analyze_market t p s = (.BUY, .MEDIUM) ↔
        dirCount .BUY t p s = 1 ∧ dirCount .SELL t p s ≤ 1) := by
  decide

/-- Witness for C1's amended theorem at the concrete 1-1 tie. -/
theorem analyze_market_tie_breaks_to_buy_witness :
    analyze_market (.BUY, .MEDIUM) (.SELL, .MEDIUM) (.HOLD, .NONE) = (.BUY, .MEDIUM) :=
  (analyze_market_tie_breaks_to_buy (.BUY, .MEDIUM) (.SELL, .MEDIUM) (.HOLD, .NONE)).1
    (by decide) (by decide)

/-- C2 counterexample: a single `(Buy, Low)` opinion (the other two leaves
degraded to `(Hold, None)`) is counted: the fusion returns `(Buy, Medium)`
rather than the `(Hold, None)` required if sub-Medium confidences contributed 0. -/
theorem analyze_market_counts_low_confidence :
    analyze_market (.BUY, .LOW) (.HOLD, .NONE) (.HOLD, .NONE) = (.BUY, .MEDIUM) ∧
    analyze_market (.BUY, .LOW) (.HOLD, .NONE) (.HOLD, .NONE) ≠ (.HOLD, .NONE) := by
  decide

/-- C2 (amended): the fusion tally ignores confidence entirely; every opinion
counts by direction alone, so replacing any confidences leaves the result
unchanged. -/
theorem analyze_market_ignores_confidence :
    ∀ (d₁ d₂ d₃ : SignalType) (c₁ c₂ c₃ c₁' c₂' c₃' : ConfidenceLevel),
      analyze_market (d₁, c₁) (d₂, c₂) (d₃, c₃) =
        analyze_market (d₁, c₁') (d₂, c₂') (d₃, c₃') :=
  fun _ _ _ _ _ _ _ _ _ => rfl

/-- C3: a 2-of-3 (or 3-of-3) majority of Buy directions yields `(Buy, High)`,
a majority of Sell yields `(Sell, High)`, the spec's concrete instance holds,
and a Hold opinion contributes 0 to both tallies. -/
theorem analyze_market_majority :
    (∀ t p s : LeafOpinion,
      (2 ≤ dirCount .BUY t p s → analyze_market t p s = (.BUY, .HIGH)) ∧
      (2 ≤ dirCount .SELL t p s → analyze_market t p s = (.SELL, .HIGH))) ∧
    analyze_market (.BUY, .HIGH) (.BUY, .HIGH) (.SELL, .HIGH) = (.BUY, .HIGH) ∧
    (∀ op : LeafOpinion, op.1 = .HOLD → contrib .BUY op = 0 ∧ contrib .SELL op = 0) := by
  decide

/-- Witness for C3 at concrete majorities in both directions. -/
theorem analyze_market_majority_witness :
    analyze_market (.BUY, .HIGH) (.BUY, .MEDIUM) (.HOLD, .NONE) = (.BUY, .HIGH) ∧
    analyze_market (.SELL, .LOW) (.SELL, .HIGH) (.HOLD, .NONE) = (.SELL, .HIGH) ∧
    contrib .BUY (.HOLD, .HIGH) = 0 :=
  ⟨(analyze_market_majority.1 (.BUY, .HIGH) (.BUY, .MEDIUM) (.HOLD, .NONE)).1 (by decide),
   (analyze_market_majority.1 (.SELL, .LOW) (.SELL, .HIGH) (.HOLD, .NONE)).2 (by decide),
   (analyze_market_majority.2.2 (.HOLD, .HIGH) (by decide)).1⟩

/-- C9: the fused confidence is always HIGH, MEDIUM or NONE — never LOW —
although the technical leaf's own confluence produces LOW when exactly one
of its four indicators fires. -/
theorem analyze_market_never_low :
    (∀ t p s : LeafOpinion,
      (analyze_market t p s).2 = .HIGH ∨ (analyze_market t p s).2 = .MEDIUM ∨
        (analyze_market t p s).2 = .NONE) ∧
    techConfluence .BUY .HOLD .HOLD .HOLD = (.BUY, .LOW) := by
  decide

/-! ### Claim theorems for the broadcaster -/

/-- C4 counterexample: the RSI check, the first deciding check, sets the action
AND increments strength (from 0 to 1); with a single agreeing MACD check the
scorer already reaches strength 2 and `generate_signal` returns a signal —
under the claim's accounting (setter contributes 0) strength would be 1 and no
signal would be returned. -/
theorem rsi_sets_and_increments :
    rsiCheck rowRsiMacd ⟨none, 0⟩ = ⟨some .BUY, 1⟩ ∧
    runChecks rowRsiMacd = ⟨some .BUY, 2⟩ ∧
    (generate_signal initState "BTCUSDT" rowRsiMacd 0).1 = some ⟨100, 0, .BUY, 2⟩ := by
  decide

/-- C4 (amended): the action, once set, is never flipped by a later check;
MACD/EMA/Bollinger increment strength exactly when they agree with the set
action and set it without incrementing when it is unset; the RSI check sets
the action and also increments strength; a signal is returned only when the
pair is out of cooldown, an action is set, and its strength (the scorer's
final strength) is at least 2. -/
theorem generate_signal_strength_rules :
    (∀ (row : MarketRow) (s : SigState) (a : SignalType), s.action = some a →
      (macdCheck row s).action = some a ∧ (emaCheck row s).action = some a ∧
        (bbCheck row s).action = some a) ∧
    (∀ (v : SignalType) (s : SigState),
      (s.action = some v → applyVote v s = ⟨some v, s.strength + 1⟩) ∧
      (s.action = none → applyVote v s = ⟨some v, s.strength⟩)) ∧
    (∀ (row : MarketRow) (s : SigState) (r : ℚ), row.rsi = some r → r < 30 →
      rsiCheck row s = ⟨some .BUY, s.strength + 1⟩) ∧
    (∀ (st : BroadcasterState) (pair : String) (row : MarketRow) (now : ℚ)
        (sig : SigRecord) (st' : BroadcasterState),
      generate_signal st pair row now = (some sig, st') →
      inCooldown st pair now = false ∧ (runChecks row).action = some sig.action ∧
        2 ≤ sig.strength ∧ sig.strength = (runChecks row).strength) := by
  refine ⟨?_, ?_, ?_, ?_⟩
  · intro row s a h
    exact ⟨macdCheck_action_some row s a h, emaCheck_action_some row s a h,
      bbCheck_action_some row s a h⟩
  · intro v s
    exact ⟨applyVote_agree v s, applyVote_set v s⟩
  · intro row s r hr hlt
    unfold rsiCheck
    rw [hr]
    dsimp only
    rw [if_pos hlt]
  · intro st pair row now sig st' h
    rcases generate_signal_cases st pair row now with h0 | ⟨hc, h2, a, ha, heq⟩
    · rw [h0] at h
      injection h with h1 _
      cases h1
    · rw [heq] at h
      injection h with h1 hst
      injection h1 with h1
      subst h1
      exact ⟨hc, ha, h2, rfl⟩

/-- Witness for C4's amended theorem at concrete inputs. -/
theorem generate_signal_strength_rules_witness :
    (macdCheck rowRsiMacd ⟨some .SELL, 5⟩).action = some .SELL ∧
    applyVote .BUY ⟨none, 3⟩ = ⟨some .BUY, 3⟩ ∧
    rsiCheck rowRsiMacd ⟨none, 0⟩ = ⟨some .BUY, 1⟩ ∧
    inCooldown initState "BTCUSDT" 0 = false :=
  ⟨(generate_signal_strength_rules.1 rowRsiMacd ⟨some .SELL, 5⟩ .SELL rfl).1,
   (generate_signal_strength_rules.2.1 .BUY ⟨none, 3⟩).2 rfl,
   generate_signal_strength_rules.2.2.1 rowRsiMacd ⟨none, 0⟩ 20 rfl (by norm_num),
   (generate_signal_strength_rules.2.2.2 initState "BTCUSDT" rowRsiMacd 0
     ⟨100, 0, .BUY, 2⟩
     ⟨[("BTCUSDT", ⟨100, 0, .BUY, 2⟩)], [("BTCUSDT", ⟨100, 0, .BUY, none, none⟩)]⟩
     (by decide)).1⟩

/-- C5 counterexample: with a record delivered at time 0, a proposal at
elapsed 3600 seconds is still suppressed (the claim says the window ends
exactly at 3600), while the same proposal at elapsed 7200 goes through:
the cooldown constant is `signal_cooldown = 7200`, not 3600. -/
theorem cooldown_is_7200_not_3600 :
    (generate_signal stCool "BTCUSDT" rowRsiMacd 3600).1 = none ∧
    (generate_signal stCool "BTCUSDT" rowRsiMacd 7200).1 = some ⟨100, 7200, .BUY, 2⟩ := by
  have h1 : alookup "BTCUSDT" stCool.lastSignals = some ⟨100, 0, .BUY, 2⟩ := by decide
  constructor
  · rw [generate_signal_cooldown _ _ _ _
      (inCooldown_true_of _ _ _ _ h1 (by norm_num [signal_cooldown]))]
  · rw [generate_signal_not_cooldown _ _ _ _
      (inCooldown_false_of _ _ _ _ h1 (by norm_num [signal_cooldown]))]
    decide

/-- C5 (amended): for every pair with a recorded last signal, every proposal
while `now - lastTimestamp < signal_cooldown` (7200 s, not 3600 s) is
suppressed regardless of direction and the state is untouched; the window ends
exactly at 7200 s, after which `generate_signal` behaves as with no cooldown. -/
theorem cooldown_suppression :
    ∀ (st : BroadcasterState) (pair : String) (row : MarketRow) (now : ℚ) (sr : SigRecord),
      alookup pair st.lastSignals = some sr →
      (now - sr.timestamp < signal_cooldown → generate_signal st pair row now = (none, st)) ∧
      (signal_cooldown ≤ now - sr.timestamp →
        generate_signal st pair row now = genCore st pair row now) := by
  intro st pair row now sr h
  constructor
  · intro hlt
    exact generate_signal_cooldown st pair row now (inCooldown_true_of st pair now sr h hlt)
  · intro hge
    exact generate_signal_not_cooldown st pair row now (inCooldown_false_of st pair now sr h hge)

/-- Witness for C5's amended theorem: a proposal 10 seconds after delivery is
rejected. -/
theorem cooldown_suppression_witness :
    generate_signal stCool "BTCUSDT" rowRsiMacd 10 = (none, stCool) :=
  (cooldown_suppression stCool "BTCUSDT" rowRsiMacd 10 ⟨100, 0, .BUY, 2⟩ (by decide)).1
    (by norm_num [signal_cooldown])

/-- C6 counterexample: starting from a fresh state (no record for BTCUSDT), a
cycle whose Notifier call FAILS still leaves the gatekeeper record written
(it was stored inside `generate_signal`, before the delivery attempt), and the
retry 10 seconds later is suppressed — the signal is not eligible for retry. -/
theorem delivery_failure_still_marked :
    alookup "BTCUSDT" initState.lastSignals = none ∧
    alookup "BTCUSDT" ((processPair false initState "BTCUSDT" rowRsiMacd 0).1).lastSignals =
      some ⟨100, 0, .BUY, 2⟩ ∧
    (generate_signal (processPair false initState "BTCUSDT" rowRsiMacd 0).1
      "BTCUSDT" rowRsiMacd 10).1 = none := by
  refine ⟨rfl, by decide, ?_⟩
  have hstep : (processPair false initState "BTCUSDT" rowRsiMacd 0).1 =
      ⟨[("BTCUSDT", ⟨100, 0, .BUY, 2⟩)], [("BTCUSDT", ⟨100, 0, .BUY, none, none⟩)]⟩ := by
    decide
  rw [hstep]
  have h1 : alookup "BTCUSDT"
      (⟨[("BTCUSDT", ⟨100, 0, .BUY, 2⟩)], [("BTCUSDT", ⟨100, 0, .BUY, none, none⟩)]⟩ :
        BroadcasterState).lastSignals = some ⟨100, 0, .BUY, 2⟩ := by decide
  rw [generate_signal_cooldown _ _ _ _
    (inCooldown_true_of _ _ _ _ h1 (by norm_num [signal_cooldown]))]

/-- C6 (amended): the gatekeeper record is written when the signal is
generated, before the delivery attempt; the post-cycle state is identical
whether the Notifier succeeds or fails, the new record is already stored in
`last_signals`, and any retry within the cooldown window is suppressed rather
than retried. -/
theorem record_marked_at_generation :
    ∀ (d₁ d₂ : Bool) (st : BroadcasterState) (pair : String) (row : MarketRow) (now : ℚ)
      (sig : SigRecord) (st' : BroadcasterState),
      generate_signal st pair row now = (some sig, st') →
      (processPair d₁ st pair row now).1 = st' ∧
      (processPair d₁ st pair row now).1 = (processPair d₂ st pair row now).1 ∧
      alookup pair st'.lastSignals = some sig ∧
      (∀ (row' : MarketRow) (now' : ℚ), now' - sig.timestamp < signal_cooldown →
        (generate_signal st' pair row' now').1 = none) := by
  intro d1 d2 st pair row now sig st' h
  have hp : ∀ d : Bool, (processPair d st pair row now).1 = st' := by
    intro d
    unfold processPair
    rw [h]
  refine ⟨hp d1, (hp d1).trans (hp d2).symm, ?_, ?_⟩
  · rcases generate_signal_cases st pair row now with h0 | ⟨hc, h2, a, ha, heq⟩
    · rw [h0] at h
      injection h with h1 _
      cases h1
    · rw [heq] at h
      injection h with h1 hst
      injection h1 with h1
      subst h1
      subst hst
      simp [alookup_upsert]
  · intro row' now' hlt
    rcases generate_signal_cases st pair row now with h0 | ⟨hc, h2, a, ha, heq⟩
    · rw [h0] at h
      injection h with h1 _
      cases h1
    · rw [heq] at h
      injection h with h1 hst
      injection h1 with h1
      subst h1
      subst hst
      have hlk : alookup pair
          (⟨upsert pair ⟨row.price, now, a, (runChecks row).strength⟩ st.lastSignals,
            upsert pair ⟨row.price, now, a, none, none⟩ st.profitTracking⟩ :
              BroadcasterState).lastSignals =
          some ⟨row.price, now, a, (runChecks row).strength⟩ := by
        simp [alookup_upsert]
      rw [generate_signal_cooldown _ _ _ _ (inCooldown_true_of _ _ _ _ hlk hlt)]

/-- Witness for C6's amended theorem at a concrete generated signal. -/
theorem record_marked_at_generation_witness :
    (processPair false initState "BTCUSDT" rowRsiMacd 0).1 =
      ⟨[("BTCUSDT", ⟨100, 0, .BUY, 2⟩)], [("BTCUSDT", ⟨100, 0, .BUY, none, none⟩)]⟩ ∧
    (generate_signal
      (⟨[("BTCUSDT", ⟨100, 0, .BUY, 2⟩)], [("BTCUSDT", ⟨100, 0, .BUY, none, none⟩)]⟩ :
        BroadcasterState) "BTCUSDT" rowRsiMacd 10).1 = none :=
  ⟨(record_marked_at_generation false true initState "BTCUSDT" rowRsiMacd 0
      ⟨100, 0, .BUY, 2⟩ _ (by decide)).1,
   (record_marked_at_generation false true initState "BTCUSDT" rowRsiMacd 0
      ⟨100, 0, .BUY, 2⟩ _ (by decide)).2.2.2 rowRsiMacd 10 (by norm_num [signal_cooldown])⟩

/-- C8: in every reachable broadcaster state, every record stored in
`last_signals` has action BUY or SELL — never HOLD. -/
theorem stored_action_never_hold :
    ∀ st : BroadcasterState, Reachable st →
      ∀ (pair : String) (sr : SigRecord), alookup pair st.lastSignals = some sr →
        sr.action = .BUY ∨ sr.action = .SELL := by
  intro st h
  induction h with
  | init =>
    intro pair sr hl
    simp [initState, alookup] at hl
  | gen pair row now st hst ih =>
    intro p sr hl
    rcases generate_signal_cases st pair row now with h0 | ⟨hc, h2, a, ha, heq⟩
    · rw [h0] at hl
      exact ih p sr hl
    · rw [heq] at hl
      dsimp only at hl
      rw [alookup_upsert] at hl
      by_cases hp : p = pair
      · rw [if_pos hp] at hl
        injection hl with h1
        subst h1
        rcases runChecks_ok row with h0 | h0 | h0 <;> rw [ha] at h0
        · cases h0
        · injection h0 with h0
          left
          exact h0
        · injection h0 with h0
          right
          exact h0
      · rw [if_neg hp] at hl
        exact ih p sr hl
  | profit now fetch st hst ih =>
    intro p sr hl
    exact ih p sr hl

/-- Witness for C8 at a concrete reachable state holding one record. -/
theorem stored_action_never_hold_witness :
    (⟨100, 0, .BUY, 2⟩ : SigRecord).action = .BUY ∨
    (⟨100, 0, .BUY, 2⟩ : SigRecord).action = .SELL :=
  stored_action_never_hold (generate_signal initState "BTCUSDT" rowRsiMacd 0).2
    (Reachable.gen "BTCUSDT" rowRsiMacd 0 initState Reachable.init)
    "BTCUSDT" ⟨100, 0, .BUY, 2⟩ (by decide)

/-- C10: a profit-tracking pass removes at most one entry (lengths drop by at
most one), and when the first expired entry is reached — prefix entries
non-expired and free of the division-by-zero abort — that entry is deleted,
the aborted iteration leaves every later entry exactly as it was, and the
prefix carries the normal refresh. -/
theorem profitPass_single_removal :
    (∀ (now : ℚ) (fetch : String → Option ℚ) (l : List (String × ProfitRecord)),
      l.length ≤ (profitPass now fetch l).length + 1 ∧
      (profitPass now fetch l).length ≤ l.length) ∧
    (∀ (now : ℚ) (fetch : String → Option ℚ) (pre : List (String × ProfitRecord))
        (e : String × ProfitRecord) (suf : List (String × ProfitRecord)),
      (∀ x ∈ pre, ¬(86400 < now - x.2.entryTime) ∧ x.2.entryPrice ≠ 0) →
      86400 < now - e.2.entryTime →
      profitPass now fetch (pre ++ e :: suf) = pre.map (refreshEntry fetch) ++ suf) := by
  constructor
  · intro now fetch l
    induction l with
    | nil => simp [profitPass]
    | cons x rest ih =>
      obtain ⟨ih1, ih2⟩ := ih
      rw [profitPass_cons]
      rcases hf : fetch x.1 with _ | price
      · dsimp only
        split_ifs with h1
        · simp only [List.length_cons]
          omega
        · simp only [List.length_cons]
          omega
      · dsimp only
        split_ifs with h1 h2
        · simp only [List.length_cons]
          omega
        · simp only [List.length_cons]
          omega
        · simp only [List.length_cons]
          omega
  · intro now fetch pre
    induction pre with
    | nil =>
      intro e suf _ he
      simp only [List.nil_append, List.map_nil]
      rw [profitPass_cons, if_pos he]
    | cons x rest ih =>
      intro e suf hpre he
      obtain ⟨hx1, hx2⟩ := hpre x (List.mem_cons_self x rest)
      have hrest : ∀ y ∈ rest, ¬(86400 < now - y.2.entryTime) ∧ y.2.entryPrice ≠ 0 :=
        fun y hy => hpre y (List.mem_cons_of_mem x hy)
      simp only [List.cons_append, List.map_cons]
      rw [profitPass_cons, if_neg hx1]
      rcases hf : fetch x.1 with _ | price
      · dsimp only
        have hrx : refreshEntry fetch x = x := by
          unfold refreshEntry
          rw [hf]
        rw [hrx, ih e suf hrest he]
      · dsimp only
        rw [if_neg hx2]
        have hrx : refreshEntry fetch x =
            (x.1, { x.2 with currentProfit := some (profitPct x.2 price),
                             currentPrice := some price }) := by
          unfold refreshEntry
          rw [hf]
        rw [hrx, ih e suf hrest he]

/-- Witness for C10: a concrete pass over one fresh entry, one expired entry
and one later entry removes only the expired entry and leaves the later entry
untouched. -/
theorem profitPass_single_removal_witness :
    profitPass 100000 (fun _ => none)
      [("A", ⟨1, 90000, .BUY, none, none⟩), ("B", ⟨1, 0, .BUY, none, none⟩),
        ("C", ⟨1, 95000, .SELL, none, none⟩)] =
      [("A", ⟨1, 90000, .BUY, none, none⟩), ("C", ⟨1, 95000, .SELL, none, none⟩)] :=
  (profitPass_single_removal.2 100000 (fun _ => none)
    [("A", ⟨1, 90000, .BUY, none, none⟩)] ("B", ⟨1, 0, .BUY, none, none⟩)
    [("C", ⟨1, 95000, .SELL, none, none⟩)]
    (by intro x hx; simp only [List.mem_singleton] at hx; subst hx; norm_num)
    (by norm_num)).trans (by decide)


/-! ### Claim theorems for the leaves -/

/-- C7 counterexample: the technical leaf raises (`IndexError` from
`df['close'].iloc[-1]`; `TechnicalAnalyzer.analyze` has no try/except) on an
empty series instead of returning (Hold, None); and the pattern leaf on a
2-candle series — far shorter than its largest lookback window — returns
(Buy, High) from a bullish engulfing match, not (Hold, None). -/
theorem tech_leaf_raises_on_empty :
    techAnalyzeE [] = Except.error "IndexError" ∧
    patternAnalyze engCandles = (.BUY, .HIGH) ∧
    patternAnalyze engCandles ≠ (.HOLD, .NONE) :=
  ⟨rfl, by decide, by decide⟩

/-- C7 (amended): the pattern leaf is total (every exception is caught) and
returns (Hold, None) on an empty frame, but a short series does not generally
degrade: two candles suffice for a (Buy, High) engulfing signal.  The
technical leaf raises on an empty/missing series; on a non-empty series of
fewer than 14 closes every indicator cell consumed is still NaN, and it
returns (Hold, None). -/
theorem leaf_degradation :
    (∀ xs : List ℚ, 1 ≤ xs.length → xs.length < 14 →
      techAnalyzeE xs = Except.ok (.HOLD, .NONE)) ∧
    patternAnalyze ([] : List Candle) = (.HOLD, .NONE) ∧
    techAnalyzeE [] = Except.error "IndexError" ∧
    patternAnalyze engCandles = (.BUY, .HIGH) := by
  refine ⟨?_, by decide, rfl, by decide⟩
  intro xs h1 h2
  have e1 : get_rsi_signal xs = .HOLD :=
    get_rsi_signal_hold (rsiLast_none_of_short (by unfold RSI_PERIOD; omega))
  have e2 : get_macd_signal xs = .HOLD :=
    get_macd_signal_hold (macdSignalLast_none_of_short (by omega))
  have e3 : get_ema_signal xs = .HOLD :=
    get_ema_signal_hold (emaLast_none_of_short (by unfold EMA_LONG; omega))
  have e4 : ∀ price : ℚ, get_bb_signal xs price = .HOLD :=
    fun price => get_bb_signal_hold price (smaLast_none_of_short (by unfold BB_PERIOD; omega))
  unfold techAnalyzeE
  rcases hgl : xs.getLast? with _ | price
  · rw [List.getLast?_eq_none_iff] at hgl
    subst hgl
    simp at h1
  · dsimp only
    rw [e1, e2, e3, e4 price]
    rfl

/-- Witness for C7's amended theorem: a 3-close series degrades to
(Hold, None) without raising. -/
theorem leaf_degradation_witness :
    techAnalyzeE [1, 2, 3] = Except.ok (.HOLD, .NONE) :=
  leaf_degradation.1 [1, 2, 3] (by decide) (by decide)

end CryptoBot
